import Mathlib

set_option maxRecDepth 100000

/-!
Verification of the yt-dlp-mcp configuration and comment-extraction core.

The definitions below are a shallow embedding of the TypeScript sources:
* `src/config.ts` (the unnamed source file holding `VALID_BROWSERS`,
  `defaultConfig`, `loadEnvConfig`, `validateConfig`, `validateCookiesConfig`,
  `mergeConfig`, `loadConfig`, `sanitizeFilename`, `getCookieArgs`), and
* `src/modules/comments.ts` (`getVideoComments`, `getVideoCommentsSummary`).

Modelling conventions:
* JavaScript `string` becomes `String`; an optional field `x?: T` becomes
  `Option T`; JS truthiness of an optional string (`if (s)`) is
  `s = some v ∧ v ≠ ""`.
* JS numbers that the code only treats as integers become `Int` (or `Nat`
  where the source value is a count or a length).
* The `RegExp` stored in `config.file.sanitize.illegalChars` is a character
  class in the shipped default; it is modelled as a characteristic function
  `Char → Bool`, and `String.replace` with a global character-class regex is
  per-character substitution.
* Filesystem access (`fs.existsSync`) and the process environment are passed
  in explicitly as parameters.
* `console.warn` output is collected into a returned list of warnings, and a
  thrown `Error` becomes `Except String`.
-/

/-- JS truthiness of an optional string: `undefined` and `""` are falsy. -/
def jsTruthy : Option String → Bool
  | some s => s ≠ ""
  | none => false

/-- Does the character list `l` start with the character list `p`? -/
def charsStartWith : List Char → List Char → Bool
  | _, [] => true
  | [], _ :: _ => false
  | c :: cs, p :: ps => c = p && charsStartWith cs ps

/-- Does the character list `l` contain `p` as a contiguous run?  Used to
model JavaScript `String.prototype.includes`. -/
def charsContain (l p : List Char) : Bool :=
  charsStartWith l p ||
    (match l with
     | [] => false
     | _ :: l₂ => charsContain l₂ p)

/-- JavaScript `msg.includes(pat)`. -/
def strIncludes (s pat : String) : Bool :=
  charsContain s.data pat.data

/-- Split a character list on a separator character; models JS
`String.prototype.split` with a one-character separator (an empty input
yields one empty field, like JS). -/
def splitOnChar (sep : Char) : List Char → List (List Char)
  | [] => [[]]
  | c :: rest =>
    if c = sep then [] :: splitOnChar sep rest
    else
      match splitOnChar sep rest with
      | h :: t => (c :: h) :: t
      | [] => [[c]]

/- ### Configuration data model (src/config.ts) -/

/-- Valid browser names for cookie extraction (`VALID_BROWSERS`). -/
def VALID_BROWSERS : List String :=
  ["brave", "chrome", "chromium", "edge",
   "firefox", "opera", "safari", "vivaldi", "whale"]

/-- `Config['file']['sanitize']`.  The illegal-character regex is modelled as
a characteristic function on characters (the shipped default is the character
class `[<>:"/\\|?*\x00-\x1F]`). -/
structure SanitizeConfig where
  replaceChar : String
  truncateSuffix : String
  illegalChars : Char → Bool
  reservedNames : List String

/-- `Config['file']`. -/
structure FileConfig where
  maxFilenameLength : Int
  downloadsDir : String
  tempDirPrefix : String
  sanitize : SanitizeConfig

/-- `Config['tools']`. -/
structure ToolsConfig where
  required : List String

/-- `Config['download']`.  The resolution and audio format are string-typed
at runtime (TypeScript union types are erased); `validateConfig` re-checks
them against the allowed lists. -/
structure DownloadConfig where
  defaultResolution : String
  defaultAudioFormat : String
  defaultSubtitleLanguage : String

/-- `Config['limits']`. -/
structure LimitsConfig where
  characterLimit : Nat
  maxTranscriptLength : Nat

/-- `Config['cookies']`. -/
structure CookiesConfig where
  file : Option String
  fromBrowser : Option String

/-- The full `Config` interface. -/
structure Config where
  file : FileConfig
  tools : ToolsConfig
  download : DownloadConfig
  limits : LimitsConfig
  cookies : CookiesConfig

/-- The default illegal-character class `[<>:"/\\|?*\x00-\x1F]`. -/
def defaultIllegalChars (c : Char) : Bool :=
  c = '<' || c = '>' || c = ':' || c = '"' || c = '/' || c = '\\' ||
  c = '|' || c = '?' || c = '*' || c.toNat ≤ 31

/-- `path.join(a, b)` for the simple two-segment use in `defaultConfig`. -/
def pathJoin (a b : String) : String :=
  if a = "" then b else a ++ "/" ++ b

/-- The built-in `defaultConfig`, parameterised by `os.homedir()`. -/
def defaultConfig (homedir : String) : Config :=
  { file :=
    { maxFilenameLength := 50
      downloadsDir := pathJoin homedir "Downloads"
      tempDirPrefix := "ytdlp-"
      sanitize :=
      { replaceChar := "_"
        truncateSuffix := "..."
        illegalChars := defaultIllegalChars
        reservedNames :=
          ["CON", "PRN", "AUX", "NUL", "COM1", "COM2", "COM3", "COM4",
           "COM5", "COM6", "COM7", "COM8", "COM9", "LPT1", "LPT2",
           "LPT3", "LPT4", "LPT5", "LPT6", "LPT7", "LPT8", "LPT9"] } }
    tools := { required := ["yt-dlp"] }
    download :=
    { defaultResolution := "720p"
      defaultAudioFormat := "m4a"
      defaultSubtitleLanguage := "en" }
    limits :=
    { characterLimit := 25000
      maxTranscriptLength := 50000 }
    cookies := { file := none, fromBrowser := none } }

/- ### getCookieArgs (src/config.ts) -/

/-- The `--cookies-from-browser` branch of `getCookieArgs`, reached when
`config.cookies.file` is falsy. -/
def fromBrowserArgs (config : Config) : List String :=
  match config.cookies.fromBrowser with
  | some b => if b ≠ "" then ["--cookies-from-browser", b] else []
  | none => []

/-- `getCookieArgs`: cookie file takes precedence over browser extraction;
a falsy (`undefined` or empty) field is skipped.  The TypeScript guard
`if (!config.cookies) return []` is unreachable in the model because
`cookies` is a non-optional field of `Config`. -/
def getCookieArgs (config : Config) : List String :=
  match config.cookies.file with
  | some f => if f ≠ "" then ["--cookies", f] else fromBrowserArgs config
  | none => fromBrowserArgs config

/- ### Environment-variable loading (loadEnvConfig) -/

/-- The process environment restricted to the variables the repository
documents.  Each field is `some value` when the variable is defined (the
value may be the empty string) and `none` when it is absent. -/
structure Env where
  YTDLP_SANITIZE_REPLACE_CHAR : Option String := none
  YTDLP_SANITIZE_TRUNCATE_SUFFIX : Option String := none
  YTDLP_SANITIZE_ILLEGAL_CHARS : Option String := none
  YTDLP_SANITIZE_RESERVED_NAMES : Option String := none
  YTDLP_MAX_FILENAME_LENGTH : Option String := none
  YTDLP_DOWNLOADS_DIR : Option String := none
  YTDLP_TEMP_DIR_PREFIX : Option String := none
  YTDLP_DEFAULT_RESOLUTION : Option String := none
  YTDLP_DEFAULT_AUDIO_FORMAT : Option String := none
  YTDLP_DEFAULT_SUBTITLE_LANG : Option String := none
  YTDLP_CHARACTER_LIMIT : Option String := none
  YTDLP_MAX_TRANSCRIPT_LENGTH : Option String := none
  YTDLP_COOKIES_FILE : Option String := none
  YTDLP_COOKIES_FROM_BROWSER : Option String := none

/-- The decimal-digit run at the front of `l`, if nonempty. -/
def leadingDigits (l : List Char) : Option Nat :=
  let ds := l.takeWhile Char.isDigit
  if ds.isEmpty then none
  else some (ds.foldl (fun acc c => acc * 10 + (c.toNat - 48)) 0)

/-- JavaScript `parseInt(s)` for decimal input: skip leading whitespace,
accept an optional sign, then read the leading digit run; `none` models the
`NaN` outcome.  (The `0x` hexadecimal form is not modelled; no caller of
`parseInt` in the source documents hexadecimal input.) -/
def jsParseInt (s : String) : Option Int :=
  let t := s.data.dropWhile fun c => c = ' ' || c = '\t' || c = '\n' || c = '\r'
  match t with
  | '-' :: rest => (leadingDigits rest).map fun n => -(n : Int)
  | '+' :: rest => (leadingDigits rest).map fun n => (n : Int)
  | rest => (leadingDigits rest).map fun n => (n : Int)

/-- `DeepPartial<Config>` restricted to the leaves `loadEnvConfig` can set,
flattened (`file_maxFilenameLength` stands for `file?.maxFilenameLength`,
`san_replaceChar` for `file?.sanitize?.replaceChar`, and so on).  A `none`
models an `undefined` leaf.  The `limits_*` leaves are present in the type —
`mergeConfig` reads them — but `loadEnvConfig` never sets them. -/
structure PartialConfig where
  file_maxFilenameLength : Option Int := none
  file_downloadsDir : Option String := none
  file_tempDirPrefix : Option String := none
  san_replaceChar : Option String := none
  san_truncateSuffix : Option String := none
  san_illegalChars : Option (Char → Bool) := none
  san_reservedNames : Option (List String) := none
  dl_defaultResolution : Option String := none
  dl_defaultAudioFormat : Option String := none
  dl_defaultSubtitleLanguage : Option String := none
  limits_characterLimit : Option Nat := none
  limits_maxTranscriptLength : Option Nat := none
  cookies_file : Option String := none
  cookies_fromBrowser : Option String := none

/-- `loadEnvConfig`, parameterised by the `new RegExp` compiler (modelled as
producing a character predicate).  Guards of the form
`if (process.env.X) { ... }` are truthiness tests (absent or empty ⇒ leaf
left `undefined`); `process.env.X?.split(',')` is an optional chain, so an
empty—but defined—variable still produces `[""]`. -/
def loadEnvConfig (compileRe : String → Char → Bool) (env : Env) : PartialConfig :=
  { file_maxFilenameLength :=
      match env.YTDLP_MAX_FILENAME_LENGTH with
      | some s => if s ≠ "" then jsParseInt s else none
      | none => none
    file_downloadsDir :=
      match env.YTDLP_DOWNLOADS_DIR with
      | some s => if s ≠ "" then some s else none
      | none => none
    file_tempDirPrefix :=
      match env.YTDLP_TEMP_DIR_PREFIX with
      | some s => if s ≠ "" then some s else none
      | none => none
    san_replaceChar := env.YTDLP_SANITIZE_REPLACE_CHAR
    san_truncateSuffix := env.YTDLP_SANITIZE_TRUNCATE_SUFFIX
    san_illegalChars :=
      match env.YTDLP_SANITIZE_ILLEGAL_CHARS with
      | some s => if s ≠ "" then some (compileRe s) else none
      | none => none
    san_reservedNames :=
      (env.YTDLP_SANITIZE_RESERVED_NAMES).map fun s =>
        (splitOnChar ',' s.data).map String.mk
    dl_defaultResolution :=
      match env.YTDLP_DEFAULT_RESOLUTION with
      | some s =>
        if s ≠ "" && ["480p", "720p", "1080p", "best"].contains s then some s else none
      | none => none
    dl_defaultAudioFormat :=
      match env.YTDLP_DEFAULT_AUDIO_FORMAT with
      | some s => if s ≠ "" && ["m4a", "mp3"].contains s then some s else none
      | none => none
    dl_defaultSubtitleLanguage :=
      match env.YTDLP_DEFAULT_SUBTITLE_LANG with
      | some s => if s ≠ "" then some s else none
      | none => none
    cookies_file :=
      match env.YTDLP_COOKIES_FILE with
      | some s => if s ≠ "" then some s else none
      | none => none
    cookies_fromBrowser :=
      match env.YTDLP_COOKIES_FROM_BROWSER with
      | some s => if s ≠ "" then some s else none
      | none => none }

/- ### mergeConfig -/

/-- JS `override || base` for an optional string override. -/
def orTruthyStr (o : Option String) (b : String) : String :=
  match o with
  | some s => if s = "" then b else s
  | none => b

/-- JS `override || base` for an optional integer override (`0` and `NaN`
are falsy; the `NaN` case is folded into `none` by `jsParseInt`). -/
def orTruthyInt (o : Option Int) (b : Int) : Int :=
  match o with
  | some n => if n = 0 then b else n
  | none => b

/-- JS `override || base` for an optional natural-number override. -/
def orTruthyNat (o : Option Nat) (b : Nat) : Nat :=
  match o with
  | some n => if n = 0 then b else n
  | none => b

/-- `mergeConfig(base, override)`.  `RegExp` and array overrides are always
truthy in JS, so a present `illegalChars`/`reservedNames` override wins even
when empty; `cookies` uses the nullish operator `??` instead of `||`. -/
def mergeConfig (base : Config) (o : PartialConfig) : Config :=
  { file :=
    { maxFilenameLength := orTruthyInt o.file_maxFilenameLength base.file.maxFilenameLength
      downloadsDir := orTruthyStr o.file_downloadsDir base.file.downloadsDir
      tempDirPrefix := orTruthyStr o.file_tempDirPrefix base.file.tempDirPrefix
      sanitize :=
      { replaceChar := orTruthyStr o.san_replaceChar base.file.sanitize.replaceChar
        truncateSuffix := orTruthyStr o.san_truncateSuffix base.file.sanitize.truncateSuffix
        illegalChars := (o.san_illegalChars).getD base.file.sanitize.illegalChars
        reservedNames := (o.san_reservedNames).getD base.file.sanitize.reservedNames } }
    tools := { required := base.tools.required }
    download :=
    { defaultResolution := orTruthyStr o.dl_defaultResolution base.download.defaultResolution
      defaultAudioFormat := orTruthyStr o.dl_defaultAudioFormat base.download.defaultAudioFormat
      defaultSubtitleLanguage :=
        orTruthyStr o.dl_defaultSubtitleLanguage base.download.defaultSubtitleLanguage }
    limits :=
    { characterLimit := orTruthyNat o.limits_characterLimit base.limits.characterLimit
      maxTranscriptLength :=
        orTruthyNat o.limits_maxTranscriptLength base.limits.maxTranscriptLength }
    cookies :=
    { file := (o.cookies_file).or base.cookies.file
      fromBrowser := (o.cookies_fromBrowser).or base.cookies.fromBrowser } }

/- ### Validation -/

/-- `c` is an ASCII letter. -/
def isAsciiLetter (c : Char) : Bool :=
  ('a' ≤ c && c ≤ 'z') || ('A' ≤ c && c ≤ 'Z')

/-- The language-tag test `/^[a-z]\x7b2,3\x7d(-[A-Z][a-z]\x7b3\x7d)?(-[A-Z]\x7b2\x7d)?$/i`:
with the `i` flag every letter class accepts both cases, so the pattern is
two or three letters, an optional four-letter script segment, and an
optional two-letter region segment, hyphen-separated. -/
def langTagOk (s : String) : Bool :=
  let seg (l : List Char) (len : Nat) : Bool :=
    l.length = len && l.all isAsciiLetter
  let base (l : List Char) : Bool :=
    (l.length = 2 || l.length = 3) && l.all isAsciiLetter
  match splitOnChar '-' s.data with
  | [p0] => base p0
  | [p0, p1] => base p0 && (seg p1 4 || seg p1 2)
  | [p0, p1, p2] => base p0 && seg p1 4 && seg p2 2
  | _ => false

/-- The substring before the first `:` of `b` (JS `b.split(':')[0]`). -/
def splitHeadColon (b : String) : String :=
  match splitOnChar ':' b.data with
  | h :: _ => String.mk h
  | [] => b

/-- `s.toLowerCase()` (ASCII range; every string the code compares the
result against is ASCII). -/
def strToLower (s : String) : String :=
  String.mk (s.data.map Char.toLower)

/-- `s.toUpperCase()` (ASCII range; the reserved-name list is ASCII). -/
def strToUpper (s : String) : String :=
  String.mk (s.data.map Char.toUpper)

/-- The first block of `validateCookiesConfig`: clear a truthy cookie-file
path that does not exist, warning as the source does. -/
def cookieFileCheck (fsExists : String → Bool) (file : Option String) :
    Option String × List String :=
  match file with
  | some f =>
    if f ≠ "" then
      if fsExists f then (some f, [])
      else (none,
        ["[yt-dlp-mcp] Cookie file not found: " ++ f ++ ", continuing without cookies"])
    else (some f, [])
  | none => (none, [])

/-- The second block of `validateCookiesConfig`: clear a truthy browser
specifier whose lower-cased name token is not a valid browser. -/
def cookieBrowserCheck (fromBrowser : Option String) : Option String × List String :=
  match fromBrowser with
  | some b =>
    if b ≠ "" then
      let browserName := strToLower (splitHeadColon b)
      if VALID_BROWSERS.contains browserName then (some b, [])
      else (none,
        ["[yt-dlp-mcp] Invalid browser name: " ++ browserName ++
         ". Valid browsers: " ++ String.intercalate ", " VALID_BROWSERS])
    else (some b, [])
  | none => (none, [])

/-- `validateCookiesConfig` (lenient): returns the config with offending
cookie fields cleared, plus the `console.warn` messages it emitted. -/
def validateCookiesConfig (fsExists : String → Bool) (config : Config) :
    Config × List String :=
  let fileRes := cookieFileCheck fsExists config.cookies.file
  let browserRes := cookieBrowserCheck config.cookies.fromBrowser
  ({ config with cookies := { file := fileRes.1, fromBrowser := browserRes.1 } },
   fileRes.2 ++ browserRes.2)

/-- `validateConfig`: the structural checks throw (modelled as
`Except.error`); the cookie checks never do. -/
def validateConfig (fsExists : String → Bool) (config : Config) :
    Except String (Config × List String) :=
  if config.file.maxFilenameLength < 5 then
    Except.error "maxFilenameLength must be at least 5"
  else if config.file.downloadsDir = "" then
    Except.error "downloadsDir must be specified"
  else if config.file.tempDirPrefix = "" then
    Except.error "tempDirPrefix must be specified"
  else if ["480p", "720p", "1080p", "best"].contains config.download.defaultResolution = false then
    Except.error "Invalid defaultResolution"
  else if ["m4a", "mp3"].contains config.download.defaultAudioFormat = false then
    Except.error "Invalid defaultAudioFormat"
  else if langTagOk config.download.defaultSubtitleLanguage = false then
    Except.error "Invalid defaultSubtitleLanguage"
  else
    Except.ok (validateCookiesConfig fsExists config)

/-- `loadConfig`, parameterised by `os.homedir()`, `fs.existsSync` and the
regex compiler. -/
def loadConfig (homedir : String) (fsExists : String → Bool)
    (compileRe : String → Char → Bool) (env : Env) :
    Except String (Config × List String) :=
  validateConfig fsExists (mergeConfig (defaultConfig homedir) (loadEnvConfig compileRe env))

/- ### Comments data model (src/modules/comments.ts) -/

/-- The `Comment` interface: the thirteen fields the projection in
`getVideoComments` copies.  Every field is optional; absence is `none`,
never a default value.  (The TypeScript index signature for unknown extra
source fields is outside the model; the projection drops such fields.) -/
structure Comment where
  id : Option String := none
  text : Option String := none
  author : Option String := none
  author_id : Option String := none
  author_url : Option String := none
  author_is_uploader : Option Bool := none
  author_is_verified : Option Bool := none
  like_count : Option Nat := none
  is_pinned : Option Bool := none
  is_favorited : Option Bool := none
  parent : Option String := none
  timestamp : Option Int := none
  time_text : Option String := none
deriving DecidableEq

/-- The `CommentsResponse` interface. -/
structure CommentsResponse where
  count : Nat
  has_more : Bool
  comments : List Comment
  trunc_flag : Option Bool := none
  trunc_message : Option String := none
deriving DecidableEq

/-- The `CommentSortOrder` union type. -/
inductive CommentSortOrder where
  | top
  | new
deriving DecidableEq

/-- The string a `CommentSortOrder` interpolates to. -/
def sortOrderStr : CommentSortOrder → String
  | CommentSortOrder.top => "top"
  | CommentSortOrder.new => "new"

/- ### JSON.stringify(response, null, 2) -/

/-- Lower-case hexadecimal digit. -/
def hexDigit (n : Nat) : Char :=
  if n < 10 then Char.ofNat (48 + n) else Char.ofNat (87 + n)

/-- How `JSON.stringify` escapes one character inside a string literal. -/
def jsonEscapeChar (c : Char) : List Char :=
  if c = '"' then ['\\', '"']
  else if c = '\\' then ['\\', '\\']
  else if c = Char.ofNat 8 then ['\\', 'b']
  else if c = Char.ofNat 9 then ['\\', 't']
  else if c = Char.ofNat 10 then ['\\', 'n']
  else if c = Char.ofNat 12 then ['\\', 'f']
  else if c = Char.ofNat 13 then ['\\', 'r']
  else if c.toNat < 32 then
    ['\\', 'u', '0', '0', hexDigit (c.toNat / 16), hexDigit (c.toNat % 16)]
  else [c]

/-- A JSON string literal for `s`. -/
def jsonQuote (s : String) : String :=
  "\"" ++ String.mk (s.data.flatMap jsonEscapeChar) ++ "\""

/-- `JSON.stringify` rendering of a boolean. -/
def jsBool (b : Bool) : String :=
  if b then "true" else "false"

/-- `n` spaces. -/
def spaces (n : Nat) : String :=
  String.mk (List.replicate n ' ')

/-- One present object member, or nothing for an `undefined` value
(`JSON.stringify` skips members whose value is `undefined`). -/
def optMember (key : String) (v : Option String) : List (String × String) :=
  match v with
  | some r => [(key, r)]
  | none => []

/-- The members of one serialized comment object, in the insertion order of
the object literal built by `getVideoComments`. -/
def commentMembers (c : Comment) : List (String × String) :=
  optMember "id" (c.id.map jsonQuote) ++
  optMember "text" (c.text.map jsonQuote) ++
  optMember "author" (c.author.map jsonQuote) ++
  optMember "author_id" (c.author_id.map jsonQuote) ++
  optMember "author_url" (c.author_url.map jsonQuote) ++
  optMember "author_is_uploader" (c.author_is_uploader.map jsBool) ++
  optMember "author_is_verified" (c.author_is_verified.map jsBool) ++
  optMember "like_count" (c.like_count.map fun n => toString n) ++
  optMember "is_pinned" (c.is_pinned.map jsBool) ++
  optMember "is_favorited" (c.is_favorited.map jsBool) ++
  optMember "parent" (c.parent.map jsonQuote) ++
  optMember "timestamp" (c.timestamp.map fun n => toString n) ++
  optMember "time_text" (c.time_text.map jsonQuote)

/-- Render an object with the given members at indentation `ind`, in the
two-space pretty-printing format of `JSON.stringify(·, null, 2)`. -/
def renderObj (ind : Nat) (ms : List (String × String)) : String :=
  if ms.isEmpty then "\x7b\x7d"
  else
    "\x7b\n" ++
    String.join ((ms.map fun m => spaces (ind + 2) ++ jsonQuote m.1 ++ ": " ++ m.2).intersperse ",\n") ++
    "\n" ++ spaces ind ++ "\x7d"

/-- Render the comments array at indentation `ind`. -/
def renderCommentsArray (ind : Nat) (cs : List Comment) : String :=
  if cs.isEmpty then "[]"
  else
    "[\n" ++
    String.join ((cs.map fun c => spaces (ind + 2) ++ renderObj (ind + 2) (commentMembers c)).intersperse ",\n") ++
    "\n" ++ spaces ind ++ "]"

/-- `JSON.stringify(response, null, 2)` for a `CommentsResponse`: members in
insertion order (`count`, `has_more`, `comments`, then `_truncated` and
`_message` when present). -/
def jsonStringifyResponse (r : CommentsResponse) : String :=
  renderObj 0
    ([("count", toString r.count),
      ("has_more", jsBool r.has_more),
      ("comments", renderCommentsArray 2 r.comments)] ++
     optMember "_truncated" (r.trunc_flag.map jsBool) ++
     optMember "_message" (r.trunc_message.map jsonQuote))

/- ### getVideoComments response shaping -/

/-- The projection of one raw comment onto the stable schema (the
`comments.map(comment => (\x7b ... \x7d))` literal): each known field is
copied through unchanged, unknown fields are dropped. -/
def projectComment (c : Comment) : Comment :=
  { id := c.id
    text := c.text
    author := c.author
    author_id := c.author_id
    author_url := c.author_url
    author_is_uploader := c.author_is_uploader
    author_is_verified := c.author_is_verified
    like_count := c.like_count
    is_pinned := c.is_pinned
    is_favorited := c.is_favorited
    parent := c.parent
    timestamp := c.timestamp
    time_text := c.time_text }

/-- The response built before size-ceiling enforcement
(`rawComments.slice(0, maxComments)` and the projection). -/
def buildResponse (rawComments : List Comment) (maxComments : Nat) : CommentsResponse :=
  let comments := rawComments.take maxComments
  { count := comments.length
    has_more := decide (rawComments.length > maxComments)
    comments := comments.map projectComment
    trunc_flag := none
    trunc_message := none }

/-- The `_message` text used while truncating. -/
def truncMessage (n : Nat) : String :=
  "Response truncated to " ++ toString n ++
  " comments due to size limits. Use smaller maxComments value."

/-- The replacement response built inside the truncation loop. -/
def truncResponse (cs : List Comment) : CommentsResponse :=
  { count := cs.length
    has_more := true
    comments := cs
    trunc_flag := some true
    trunc_message := some (truncMessage cs.length) }

/-- One guarded pass of the size-ceiling `while` loop, with an explicit
iteration bound.  Each iteration drops the last retained comment and the
guard requires more than one comment, so `cs.length` iterations always
suffice: with `fuel ≥ cs.length` the `0` branch is unreachable and the
function is exactly the source's `while` loop. -/
def truncAux (limit : Nat) : Nat → String → List Comment → String
  | 0, result, _ => result
  | fuel + 1, result, cs =>
    if result.length > limit ∧ cs.length > 1 then
      let cs₂ := cs.dropLast
      truncAux limit fuel (jsonStringifyResponse (truncResponse cs₂)) cs₂
    else result

/-- The `while` loop of the size-ceiling enforcement: while the serialized
`result` is over the limit and more than one comment is retained, drop the
last retained comment and re-serialize. -/
def truncWhile (limit : Nat) (result : String) (cs : List Comment) : String :=
  truncAux limit cs.length result cs

/-- The post-parse core of `getVideoComments` (lines 118–164): build the
response from the raw comments array, serialize, and enforce the character
limit when a config was supplied. -/
def getVideoCommentsCore (rawComments : List Comment) (maxComments : Nat)
    (config? : Option Config) : String :=
  let response := buildResponse rawComments maxComments
  let result := jsonStringifyResponse response
  match config? with
  | some config =>
    if result.length > config.limits.characterLimit then
      truncWhile config.limits.characterLimit result response.comments
    else result
  | none => result

/-- The yt-dlp argument vector built by `getVideoComments` (lines 99–108):
cookie arguments are inserted only when a config was supplied. -/
def buildArgs (url : String) (maxComments : Nat) (sortOrder : CommentSortOrder)
    (config? : Option Config) : List String :=
  ["--dump-json", "--no-warnings", "--no-check-certificate", "--write-comments",
   "--extractor-args",
   "youtube:comment_sort=" ++ sortOrderStr sortOrder ++ ";max_comments=" ++
     toString maxComments ++ ",all,all",
   "--skip-download"] ++
  (match config? with
   | some c => getCookieArgs c
   | none => []) ++
  [url]

/-- The `catch` block of `getVideoComments` (lines 166–184): `some msg`
models `error instanceof Error` with `error.message = msg`; `none` models a
non-`Error` thrown value.  Returns the message of the re-thrown `Error`. -/
def classifyError (url : String) (errMessage : Option String) : String :=
  match errMessage with
  | some msg =>
    if strIncludes msg "Video unavailable" || strIncludes msg "private" then
      "Video is unavailable or private: " ++ url ++
      ". Check the URL and video privacy settings."
    else if strIncludes msg "Unsupported URL" || strIncludes msg "extractor" then
      "Unsupported platform or video URL: " ++ url ++
      ". Comments extraction is primarily supported for YouTube."
    else if strIncludes msg "network" || strIncludes msg "Connection" then
      "Network error while extracting comments. Check your internet connection and retry."
    else if strIncludes msg "comments are disabled" || strIncludes msg "Comments are turned off" then
      "Comments are disabled for this video: " ++ url
    else if strIncludes msg "Sign in" || strIncludes msg "age" then
      "This video requires authentication to view comments. Configure cookies in your settings."
    else
      "Failed to extract video comments: " ++ msg ++ ". Verify the URL is correct."
  | none => "Failed to extract video comments from " ++ url

/- ### getVideoCommentsSummary author line -/

/-- Split a list into runs of three (used for thousands grouping). -/
def chunk3 : List Char → List (List Char)
  | [] => []
  | [a] => [[a]]
  | [a, b] => [[a, b]]
  | a :: b :: c :: rest => [a, b, c] :: chunk3 rest

/-- `n.toLocaleString()` under the default en-US locale: decimal digits in
groups of three separated by commas. -/
def localeString (n : Nat) : String :=
  String.mk (((chunk3 (toString n).data.reverse).intersperse [',']).flatten.reverse)

/-- The author line built for one comment in `getVideoCommentsSummary`
(lines 230–250): base text, bracketed indicator tags, time text, likes. -/
def authorLine (comment : Comment) : String :=
  let l := "Author: " ++
    (match comment.author with
     | some a => if a ≠ "" then a else "Unknown"
     | none => "Unknown")
  let l := if comment.author_is_uploader = some true then l ++ " [UPLOADER]" else l
  let l := if comment.author_is_verified = some true then l ++ " [VERIFIED]" else l
  let l := if comment.is_pinned = some true then l ++ " [PINNED]" else l
  let l :=
    match comment.time_text with
    | some t => if t ≠ "" then l ++ " (" ++ t ++ ")" else l
    | none => l
  match comment.like_count with
  | some n => if n > 0 then l ++ " - " ++ localeString n ++ " likes" else l
  | none => l

/-- The concrete environment of claim C4's failing input: the documented
character-limit and transcript-length variables are both set. -/
def envC4 : Env :=
  { YTDLP_CHARACTER_LIMIT := some "1000"
    YTDLP_MAX_TRANSCRIPT_LENGTH := some "2000" }

/-- The conjunction of the six structural checks of `validateConfig` (the
checks that throw, as opposed to the lenient cookie checks). -/
def structuralOk (config : Config) : Bool :=
  !decide (config.file.maxFilenameLength < 5) &&
  !(config.file.downloadsDir == "") &&
  !(config.file.tempDirPrefix == "") &&
  ["480p", "720p", "1080p", "best"].contains config.download.defaultResolution &&
  ["m4a", "mp3"].contains config.download.defaultAudioFormat &&
  langTagOk config.download.defaultSubtitleLanguage

/- ### sanitizeFilename (src/config.ts) -/

/-- The base-name part of a POSIX path: the last non-empty segment, with
trailing slashes ignored (Node `path` semantics). -/
def posixBaseChars (s : String) : List Char :=
  (((s.data.reverse).dropWhile fun c => c = '/').takeWhile fun c => c ≠ '/').reverse

/-- Split a base name into `(name, ext)` following Node's `path.parse` /
`path.extname`: the extension starts at the last dot, except that a dot in
the leading position starts no extension and the special base name `..` has
none. -/
def splitExtChars (b : List Char) : List Char × List Char :=
  if b = ['.', '.'] then (b, [])
  else
    let revb := b.reverse
    let afterRev := revb.takeWhile fun c => c ≠ '.'
    let rest := revb.dropWhile fun c => c ≠ '.'
    match rest with
    | [] => (b, [])
    | _ :: beforeRev =>
      if beforeRev.isEmpty then (b, [])
      else (beforeRev.reverse, '.' :: afterRev.reverse)

/-- Node `path.extname(s)`. -/
def extname (s : String) : String :=
  String.mk (splitExtChars (posixBaseChars s)).2

/-- Node `path.parse(s).name`: the base name with its extension stripped. -/
def parseName (s : String) : String :=
  String.mk (splitExtChars (posixBaseChars s)).1

/-- Step 1 of `sanitizeFilename`: `filename.replace(illegalChars, replaceChar)`
with the global character-class regex of the shipped default configuration —
every matching character is replaced by the (possibly multi-character)
replacement string. -/
def replaceIllegal (config : FileConfig) (filename : String) : String :=
  String.mk (filename.data.flatMap fun c =>
    if config.sanitize.illegalChars c then config.sanitize.replaceChar.data else [c])

/-- Step 2 of `sanitizeFilename`: prefix an underscore when the upper-cased
base name (extension stripped) is reserved. -/
def reservedGuard (config : FileConfig) (safe : String) : String :=
  let basename := strToUpper (parseName safe)
  if config.sanitize.reservedNames.contains basename then "_" ++ safe else safe

/-- The index at which `s.slice(0, k)` stops, for a string of `len`
characters: JavaScript `slice` treats a negative end index as an offset
from the end of the string, clamped at zero. -/
def jsSliceEnd (len : Nat) (k : Int) : Nat :=
  (if 0 ≤ k then k else (len : Int) + k).toNat

/-- Step 3 of `sanitizeFilename`: when the name is longer than
`maxFilenameLength`, keep `safe.slice(0, maxFilenameLength - ext.length -
truncateSuffix.length)` and append the suffix and the extension. -/
def truncateStep (config : FileConfig) (safe : String) : String :=
  if (safe.length : Int) > config.maxFilenameLength then
    String.mk (safe.data.take (jsSliceEnd safe.length
      (config.maxFilenameLength - ((extname safe).length : Int) -
        (config.sanitize.truncateSuffix.length : Int)))) ++
      config.sanitize.truncateSuffix ++ extname safe
  else safe

/-- `sanitizeFilename(filename, config)`: illegal-character replacement,
then the reserved-name guard, then length truncation. -/
def sanitizeFilename (filename : String) (config : FileConfig) : String :=
  truncateStep config (reservedGuard config (replaceIllegal config filename))

/-- The default configuration instance used for concrete inputs (the
home-directory parameter is irrelevant to every claim). -/
def cfgBase : Config := defaultConfig "/home/user"

/-- A config with a character limit small enough that even an empty
response overflows it; used as concrete input for the truncation claims. -/
def cfgSmall : Config :=
  { cfgBase with limits := { characterLimit := 10, maxTranscriptLength := 50000 } }

/-- The concrete comment of claim C8: uploader-authored, pinned, 1234
likes, no author name. -/
def commentEx : Comment :=
  { author_is_uploader := some true, is_pinned := some true, like_count := some 1234 }

/- ### Model validation against observable JS behaviour -/

/-- Spot checks of the path, locale, language-tag and serialization
helpers against the corresponding Node/JS outputs. -/
theorem model_validation :
    extname "archive.tar.gz" = ".gz" ∧ extname ".bashrc" = "" ∧ extname "a." = "." ∧
    extname ".." = "" ∧ extname "..a" = ".a" ∧ parseName "video.mp4" = "video" ∧
    sanitizeFilename "con.txt" cfgBase.file = "_con.txt" ∧
    localeString 1234567 = "1,234,567" ∧ localeString 123 = "123" ∧
    langTagOk "en" = true ∧ langTagOk "zh-Hant" = true ∧ langTagOk "en-US" = true ∧
    langTagOk "zh-Hant-TW" = true ∧ langTagOk "EN" = true ∧
    langTagOk "xx123" = false ∧ langTagOk "" = false ∧ langTagOk "en-" = false ∧
    jsonStringifyResponse { count := 1, has_more := false, comments := [{}] } =
      "\x7b\n  \"count\": 1,\n  \"has_more\": false,\n  \"comments\": [\n    \x7b\x7d\n  ]\n\x7d" := by
  decide

/- ### Substring helper lemmas -/

/-- A list starts with itself, whatever follows. -/
theorem charsStartWith_self_append (p t : List Char) :
    charsStartWith (p ++ t) p = true := by
  induction p with
  | nil => cases t <;> rfl
  | cons a p ih => simp [charsStartWith, ih]

/-- A list containing `p` at its front contains `p`. -/
theorem charsContain_of_startWith (l p : List Char)
    (h : charsStartWith l p = true) : charsContain l p = true := by
  cases l <;> simp [charsContain, h]

/-- Containment is preserved by prepending one element. -/
theorem charsContain_cons (c : Char) (l p : List Char)
    (h : charsContain l p = true) : charsContain (c :: l) p = true := by
  simp [charsContain, h]

/-- Containment is preserved by prepending a list. -/
theorem charsContain_append_left (pre l p : List Char)
    (h : charsContain l p = true) : charsContain (pre ++ l) p = true := by
  induction pre with
  | nil => simpa using h
  | cons c pre ih => simpa using charsContain_cons c (pre ++ l) p ih

/-- A string assembled as `pre ++ pat ++ suf` includes `pat`. -/
theorem strIncludes_of_split (s pre pat suf : String)
    (h : s = pre ++ pat ++ suf) : strIncludes s pat = true := by
  subst h
  simp only [strIncludes, String.data_append, List.append_assoc]
  exact charsContain_append_left pre.data _ _
    (charsContain_of_startWith _ _ (charsStartWith_self_append pat.data suf.data))

/- ### Claim C1: getCookieArgs -/

/-- **C1, counterexample.**  The claim says `getCookieArgs` returns
`["--cookies", F]` whenever `cookies.file = F`, regardless of
`fromBrowser`.  With `file` set to the empty string and `fromBrowser` set
to `"chrome"`, the code's truthiness test skips the file branch and returns
the browser arguments instead of `["--cookies", ""]`. -/
theorem claim_C1_counterexample :
    getCookieArgs
        { cfgBase with cookies := { file := some "", fromBrowser := some "chrome" } } =
      ["--cookies-from-browser", "chrome"] ∧
    (["--cookies-from-browser", "chrome"] : List String) ≠ ["--cookies", ""] := by
  exact ⟨rfl, by decide⟩

/-- **C1, amended.**  With "set" read as JS truthiness (a field holding a
nonempty string): `getCookieArgs` returns `[]` when neither cookie field is
truthy; returns exactly `["--cookies", F]` when `cookies.file = F` with `F`
nonempty, regardless of `fromBrowser`; returns exactly
`["--cookies-from-browser", B]` when `cookies.file` is not truthy and
`cookies.fromBrowser = B` with `B` nonempty; and the result is always
either empty or exactly two elements. -/
theorem claim_C1 (cfg : Config) :
    (jsTruthy cfg.cookies.file = false → jsTruthy cfg.cookies.fromBrowser = false →
      getCookieArgs cfg = []) ∧
    (∀ f, cfg.cookies.file = some f → f ≠ "" → getCookieArgs cfg = ["--cookies", f]) ∧
    (∀ b, jsTruthy cfg.cookies.file = false → cfg.cookies.fromBrowser = some b → b ≠ "" →
      getCookieArgs cfg = ["--cookies-from-browser", b]) ∧
    (getCookieArgs cfg = [] ∨ ∃ x y, getCookieArgs cfg = [x, y]) := by
  refine ⟨?_, ?_, ?_, ?_⟩
  · intro hf hb
    cases h₁ : cfg.cookies.file with
    | none =>
      cases h₂ : cfg.cookies.fromBrowser with
      | none => simp [getCookieArgs, fromBrowserArgs, h₁, h₂]
      | some b =>
        have : b = "" := by simpa [jsTruthy, h₂] using hb
        simp [getCookieArgs, fromBrowserArgs, h₁, h₂, this]
    | some f =>
      have hf0 : f = "" := by simpa [jsTruthy, h₁] using hf
      cases h₂ : cfg.cookies.fromBrowser with
      | none => simp [getCookieArgs, fromBrowserArgs, h₁, h₂, hf0]
      | some b =>
        have : b = "" := by simpa [jsTruthy, h₂] using hb
        simp [getCookieArgs, fromBrowserArgs, h₁, h₂, hf0, this]
  · intro f hf hne
    simp [getCookieArgs, hf, hne]
  · intro b hf h₂ hne
    cases h₁ : cfg.cookies.file with
    | none => simp [getCookieArgs, fromBrowserArgs, h₁, h₂, hne]
    | some f =>
      have hf0 : f = "" := by simpa [jsTruthy, h₁] using hf
      simp [getCookieArgs, fromBrowserArgs, h₁, h₂, hf0, hne]
  · unfold getCookieArgs fromBrowserArgs
    cases cfg.cookies.file with
    | none =>
      cases cfg.cookies.fromBrowser with
      | none => exact Or.inl rfl
      | some b =>
        by_cases hb : b = "" <;> simp [hb]
    | some f =>
      by_cases hf : f = ""
      · cases cfg.cookies.fromBrowser with
        | none => simp [hf]
        | some b => by_cases hb : b = "" <;> simp [hf, hb]
      · simp [hf]

/-- **C1, witness.**  The amended theorem applied to a config with both
cookie fields truthy: the file strictly wins. -/
theorem claim_C1_witness :
    getCookieArgs
        { cfgBase with cookies := { file := some "/c.txt", fromBrowser := some "chrome" } } =
      ["--cookies", "/c.txt"] :=
  (claim_C1 _).2.1 "/c.txt" rfl (by decide)

/- ### Claim C4: environment variables and configuration leaves -/

/-- **C4** (documents the code bug).  `loadEnvConfig` reads no environment
variable for the `limits` leaves, so no environment — in particular one
setting the documented `YTDLP_CHARACTER_LIMIT` / `YTDLP_MAX_TRANSCRIPT_LENGTH`
variables, as in `envC4` — can change `limits.characterLimit` or
`limits.maxTranscriptLength` away from the built-in defaults 25000/50000,
contradicting the README's environment-variable table and the claim. -/
theorem claim_C4 :
    (∀ (homedir : String) (compileRe : String → Char → Bool) (env : Env),
      (loadEnvConfig compileRe env).limits_characterLimit = none ∧
      (loadEnvConfig compileRe env).limits_maxTranscriptLength = none ∧
      (mergeConfig (defaultConfig homedir) (loadEnvConfig compileRe env)).limits.characterLimit
        = 25000 ∧
      (mergeConfig (defaultConfig homedir) (loadEnvConfig compileRe env)).limits.maxTranscriptLength
        = 50000) ∧
    (loadConfig "/h" (fun _ => false) (fun _ _ => false) envC4).map
        (fun p => p.1.limits.characterLimit) = Except.ok 25000 ∧
    (loadConfig "/h" (fun _ => false) (fun _ _ => false) envC4).map
        (fun p => p.1.limits.maxTranscriptLength) = Except.ok 50000 := by
  refine ⟨fun homedir compileRe env => ⟨rfl, rfl, rfl, rfl⟩, rfl, rfl⟩

/- ### Claim C5: lenient cookie validation, strict structural validation -/

/-- **C5.**  `loadConfig` validates the merged config; structural
misconfiguration (any of the six checks in `structuralOk`) makes it throw,
while cookie misconfiguration never does: a set-but-missing cookie file is
cleared to `none` with a warning containing "Cookie file not found", and a
set `fromBrowser` whose lower-cased token before the first `:` is not a
valid browser name is cleared to `none` with a warning containing "Invalid
browser name". -/
theorem claim_C5 :
    (∀ (homedir : String) (fs : String → Bool) (re : String → Char → Bool) (env : Env),
      loadConfig homedir fs re env =
        validateConfig fs (mergeConfig (defaultConfig homedir) (loadEnvConfig re env))) ∧
    (∀ (fs : String → Bool) (cfg : Config), structuralOk cfg = true →
      validateConfig fs cfg = Except.ok (validateCookiesConfig fs cfg)) ∧
    (∀ (fs : String → Bool) (cfg : Config), structuralOk cfg = false →
      ∃ e, validateConfig fs cfg = Except.error e) ∧
    (∀ (fs : String → Bool) (cfg cfg₂ : Config) (ws : List String) (f : String),
      validateConfig fs cfg = Except.ok (cfg₂, ws) →
      cfg.cookies.file = some f → f ≠ "" → fs f = false →
      cfg₂.cookies.file = none ∧ ∃ w ∈ ws, strIncludes w "Cookie file not found" = true) ∧
    (∀ (fs : String → Bool) (cfg cfg₂ : Config) (ws : List String) (b : String),
      validateConfig fs cfg = Except.ok (cfg₂, ws) →
      cfg.cookies.fromBrowser = some b → b ≠ "" →
      VALID_BROWSERS.contains (strToLower (splitHeadColon b)) = false →
      cfg₂.cookies.fromBrowser = none ∧ ∃ w ∈ ws, strIncludes w "Invalid browser name" = true) := by
  have hok : ∀ (fs : String → Bool) (cfg : Config), structuralOk cfg = true →
      validateConfig fs cfg = Except.ok (validateCookiesConfig fs cfg) := by
    intro fs cfg h
    simp only [structuralOk, Bool.and_eq_true, Bool.not_eq_true', decide_eq_false_iff_not,
      beq_eq_false_iff_ne, ne_eq] at h
    obtain ⟨⟨⟨⟨⟨h₁, h₂⟩, h₃⟩, h₄⟩, h₅⟩, h₆⟩ := h
    have h₄' : cfg.download.defaultResolution = "480p" ∨
        cfg.download.defaultResolution = "720p" ∨
        cfg.download.defaultResolution = "1080p" ∨
        cfg.download.defaultResolution = "best" := by simpa using h₄
    have h₅' : cfg.download.defaultAudioFormat = "m4a" ∨
        cfg.download.defaultAudioFormat = "mp3" := by simpa using h₅
    rcases h₄' with h₄' | h₄' | h₄' | h₄' <;> rcases h₅' with h₅' | h₅' <;>
      simp [validateConfig, h₁, h₂, h₃, h₄', h₅', h₆]
  have herr : ∀ (fs : String → Bool) (cfg : Config), structuralOk cfg = false →
      ∃ e, validateConfig fs cfg = Except.error e := by
    intro fs cfg h
    by_cases h₁ : cfg.file.maxFilenameLength < 5
    · exact ⟨"maxFilenameLength must be at least 5", by simp [validateConfig, h₁]⟩
    by_cases h₂ : cfg.file.downloadsDir = ""
    · exact ⟨"downloadsDir must be specified", by simp [validateConfig, h₁, h₂]⟩
    by_cases h₃ : cfg.file.tempDirPrefix = ""
    · exact ⟨"tempDirPrefix must be specified", by simp [validateConfig, h₁, h₂, h₃]⟩
    by_cases h₄ : ["480p", "720p", "1080p", "best"].contains cfg.download.defaultResolution = true
    case neg =>
      have h₄' : ¬ cfg.download.defaultResolution = "480p" ∧
          ¬ cfg.download.defaultResolution = "720p" ∧
          ¬ cfg.download.defaultResolution = "1080p" ∧
          ¬ cfg.download.defaultResolution = "best" := by simpa using h₄
      exact ⟨"Invalid defaultResolution",
        by simp [validateConfig, h₁, h₂, h₃, h₄'.1, h₄'.2.1, h₄'.2.2.1, h₄'.2.2.2]⟩
    by_cases h₅ : ["m4a", "mp3"].contains cfg.download.defaultAudioFormat = true
    case neg =>
      have h₄' : cfg.download.defaultResolution = "480p" ∨
          cfg.download.defaultResolution = "720p" ∨
          cfg.download.defaultResolution = "1080p" ∨
          cfg.download.defaultResolution = "best" := by simpa using h₄
      have h₅' : ¬ cfg.download.defaultAudioFormat = "m4a" ∧
          ¬ cfg.download.defaultAudioFormat = "mp3" := by simpa using h₅
      refine ⟨"Invalid defaultAudioFormat", ?_⟩
      rcases h₄' with h₄' | h₄' | h₄' | h₄' <;>
        simp [validateConfig, h₁, h₂, h₃, h₄', h₅'.1, h₅'.2]
    by_cases h₆ : langTagOk cfg.download.defaultSubtitleLanguage = true
    case neg =>
      have h₄' : cfg.download.defaultResolution = "480p" ∨
          cfg.download.defaultResolution = "720p" ∨
          cfg.download.defaultResolution = "1080p" ∨
          cfg.download.defaultResolution = "best" := by simpa using h₄
      have h₅' : cfg.download.defaultAudioFormat = "m4a" ∨
          cfg.download.defaultAudioFormat = "mp3" := by simpa using h₅
      have h₆' := (Bool.not_eq_true _).mp h₆
      refine ⟨"Invalid defaultSubtitleLanguage", ?_⟩
      rcases h₄' with h₄' | h₄' | h₄' | h₄' <;> rcases h₅' with h₅' | h₅' <;>
        simp [validateConfig, h₁, h₂, h₃, h₄', h₅', h₆']
    exfalso
    have hs : structuralOk cfg = true := by
      simp only [structuralOk, Bool.and_eq_true, Bool.not_eq_true', decide_eq_false_iff_not,
        beq_eq_false_iff_ne, ne_eq]
      exact ⟨⟨⟨⟨⟨h₁, h₂⟩, h₃⟩, h₄⟩, h₅⟩, h₆⟩
    simp [hs] at h
  have hpair : ∀ (fs : String → Bool) (cfg cfg₂ : Config) (ws : List String),
      validateConfig fs cfg = Except.ok (cfg₂, ws) →
      cfg₂ = (validateCookiesConfig fs cfg).1 ∧ ws = (validateCookiesConfig fs cfg).2 := by
    intro fs cfg cfg₂ ws h
    by_cases hs : structuralOk cfg = true
    · rw [hok fs cfg hs] at h
      have h' := Except.ok.inj h
      exact ⟨congrArg Prod.fst h'.symm, congrArg Prod.snd h'.symm⟩
    · obtain ⟨e, he⟩ := herr fs cfg (by simpa using hs)
      rw [he] at h
      exact absurd h (by simp)
  refine ⟨fun _ _ _ _ => rfl, hok, herr, ?_, ?_⟩
  · intro fs cfg cfg₂ ws f h hf hne hfs
    obtain ⟨hc, hw⟩ := hpair fs cfg cfg₂ ws h
    subst hc hw
    have hfile : cookieFileCheck fs cfg.cookies.file =
        (none, ["[yt-dlp-mcp] Cookie file not found: " ++ f ++ ", continuing without cookies"]) := by
      simp [cookieFileCheck, hf, hne, hfs]
    constructor
    · simp [validateCookiesConfig, hfile]
    · refine ⟨"[yt-dlp-mcp] Cookie file not found: " ++ f ++ ", continuing without cookies",
        ?_, ?_⟩
      · simp [validateCookiesConfig, hfile]
      · exact strIncludes_of_split _ "[yt-dlp-mcp] " "Cookie file not found"
          (": " ++ f ++ ", continuing without cookies") (by
            have hlit : ("[yt-dlp-mcp] Cookie file not found: " : String) =
                "[yt-dlp-mcp] " ++ "Cookie file not found" ++ ": " := by decide
            rw [hlit]
            apply String.ext
            simp [String.data_append])
  · intro fs cfg cfg₂ ws b h hb hne hinv
    obtain ⟨hc, hw⟩ := hpair fs cfg cfg₂ ws h
    subst hc hw
    have hinv' : strToLower (splitHeadColon b) ∉ VALID_BROWSERS := by simpa using hinv
    have hbr : cookieBrowserCheck cfg.cookies.fromBrowser =
        (none, ["[yt-dlp-mcp] Invalid browser name: " ++ strToLower (splitHeadColon b) ++
          ". Valid browsers: " ++ String.intercalate ", " VALID_BROWSERS]) := by
      simp [cookieBrowserCheck, hb, hne, hinv']
    constructor
    · simp [validateCookiesConfig, hbr]
    · refine ⟨"[yt-dlp-mcp] Invalid browser name: " ++ strToLower (splitHeadColon b) ++
        ". Valid browsers: " ++ String.intercalate ", " VALID_BROWSERS, ?_, ?_⟩
      · simp [validateCookiesConfig, hbr]
      · exact strIncludes_of_split _ "[yt-dlp-mcp] " "Invalid browser name"
          (": " ++ strToLower (splitHeadColon b) ++ ". Valid browsers: " ++
            String.intercalate ", " VALID_BROWSERS) (by
            have hlit : ("[yt-dlp-mcp] Invalid browser name: " : String) =
                "[yt-dlp-mcp] " ++ "Invalid browser name" ++ ": " := by decide
            rw [hlit]
            apply String.ext
            simp [String.data_append])

/-- **C5, witness.**  A config whose cookie file does not exist passes
validation with the file cleared and the warning emitted; and a structurally
invalid config (max filename length 3 < 5) makes validation throw. -/
theorem claim_C5_witness :
    ((validateCookiesConfig (fun _ => false)
        { cfgBase with cookies := { file := some "/nope.txt", fromBrowser := none } }).1.cookies.file =
        none ∧
      ∃ w ∈ (validateCookiesConfig (fun _ => false)
        { cfgBase with cookies := { file := some "/nope.txt", fromBrowser := none } }).2,
        strIncludes w "Cookie file not found" = true) ∧
    (∃ e, validateConfig (fun _ => false)
        { cfgBase with file := { cfgBase.file with maxFilenameLength := 3 } } =
      Except.error e) := by
  constructor
  · exact claim_C5.2.2.2.1 (fun _ => false)
      { cfgBase with cookies := { file := some "/nope.txt", fromBrowser := none } }
      _ _ "/nope.txt" rfl rfl (by decide) rfl
  · exact claim_C5.2.2.1 (fun _ => false)
      { cfgBase with file := { cfgBase.file with maxFilenameLength := 3 } } (by decide)

/- ### Truncation-loop helper lemmas -/

/-- The projection onto the stable schema is the identity on modelled
comments (it copies every modelled field). -/
theorem projectComment_eq (c : Comment) : projectComment c = c := rfl

/-- Behaviour of the truncation loop run with fuel `cs.length`: either the
guard fails at once and the input string is returned, or the loop returns
the serialization of the truncation response for a proper nonempty prefix
`cs.take m` of the retained comments, stopping only once the result fits or
a single comment remains. -/
theorem truncAux_spec (limit : Nat) (cs : List Comment) (s : String) :
    (truncAux limit cs.length s cs = s ∧ (s.length ≤ limit ∨ cs.length ≤ 1)) ∨
    (∃ m, 1 ≤ m ∧ m < cs.length ∧
      truncAux limit cs.length s cs = jsonStringifyResponse (truncResponse (cs.take m)) ∧
      ((jsonStringifyResponse (truncResponse (cs.take m))).length ≤ limit ∨ m = 1)) := by
  generalize hn : cs.length = n
  induction n generalizing cs s with
  | zero =>
    left
    exact ⟨rfl, Or.inr (by omega)⟩
  | succ n ih =>
    by_cases hc : s.length > limit ∧ cs.length > 1
    · have hstep : truncAux limit (n + 1) s cs =
          truncAux limit n (jsonStringifyResponse (truncResponse cs.dropLast)) cs.dropLast := by
        simp only [truncAux, if_pos hc]
      have hlen : cs.dropLast.length = n := by
        simp only [List.length_dropLast, hn]
        omega
      have hdt : cs.dropLast = cs.take (cs.length - 1) := List.dropLast_eq_take cs
      rcases ih cs.dropLast (jsonStringifyResponse (truncResponse cs.dropLast)) hlen with
        ⟨heq, hcond⟩ | ⟨m, hm1, hmlt, heq, hcond⟩
      · right
        refine ⟨cs.length - 1, by omega, by omega, ?_, ?_⟩
        · rw [hstep, heq, hdt]
        · rw [hdt] at hcond
          rcases hcond with hfit | hone
          · exact Or.inl hfit
          · exact Or.inr (by omega)
      · right
        have htt : cs.dropLast.take m = cs.take m := by
          rw [hdt, List.take_take]
          congr 1
          omega
        refine ⟨m, hm1, by omega, ?_, ?_⟩
        · rw [hstep, heq, htt]
        · rw [htt] at hcond
          exact hcond
    · have hstep : truncAux limit (n + 1) s cs = s := by
        simp only [truncAux, if_neg hc]
      left
      refine ⟨hstep, ?_⟩
      rcases not_and_or.mp hc with h | h
      · exact Or.inl (by omega)
      · exact Or.inr (by omega)

/-- `getVideoCommentsCore` without a config serializes the built response
unchanged. -/
theorem core_none_eq (raw : List Comment) (maxC : Nat) :
    getVideoCommentsCore raw maxC none = jsonStringifyResponse (buildResponse raw maxC) := rfl

/-- `getVideoCommentsCore` with a config: the outer guard and the loop. -/
theorem core_some_eq (raw : List Comment) (maxC : Nat) (cfg : Config) :
    getVideoCommentsCore raw maxC (some cfg) =
      (if (jsonStringifyResponse (buildResponse raw maxC)).length > cfg.limits.characterLimit then
        truncWhile cfg.limits.characterLimit
          (jsonStringifyResponse (buildResponse raw maxC)) (buildResponse raw maxC).comments
      else jsonStringifyResponse (buildResponse raw maxC)) := rfl

/- ### Claim C3: error classification in getVideoComments -/

/-- **C3.**  Every extraction failure is classified by substring match on
the error message in a fixed priority order, first match winning: (1)
"Video unavailable"/"private"; (2) "Unsupported URL"/"extractor"; (3)
"network"/"Connection"; (4) "comments are disabled"/"Comments are turned
off"; (5) "Sign in"/"age"; (6) otherwise the original message is wrapped;
and a non-`Error` failure yields the generic per-URL message. -/
theorem claim_C3 (url msg : String) :
    ((strIncludes msg "Video unavailable" || strIncludes msg "private") = true →
      classifyError url (some msg) =
        "Video is unavailable or private: " ++ url ++
          ". Check the URL and video privacy settings.") ∧
    ((strIncludes msg "Video unavailable" || strIncludes msg "private") = false →
      (strIncludes msg "Unsupported URL" || strIncludes msg "extractor") = true →
      classifyError url (some msg) =
        "Unsupported platform or video URL: " ++ url ++
          ". Comments extraction is primarily supported for YouTube.") ∧
    ((strIncludes msg "Video unavailable" || strIncludes msg "private") = false →
      (strIncludes msg "Unsupported URL" || strIncludes msg "extractor") = false →
      (strIncludes msg "network" || strIncludes msg "Connection") = true →
      classifyError url (some msg) =
        "Network error while extracting comments. Check your internet connection and retry.") ∧
    ((strIncludes msg "Video unavailable" || strIncludes msg "private") = false →
      (strIncludes msg "Unsupported URL" || strIncludes msg "extractor") = false →
      (strIncludes msg "network" || strIncludes msg "Connection") = false →
      (strIncludes msg "comments are disabled" || strIncludes msg "Comments are turned off") = true →
      classifyError url (some msg) = "Comments are disabled for this video: " ++ url) ∧
    ((strIncludes msg "Video unavailable" || strIncludes msg "private") = false →
      (strIncludes msg "Unsupported URL" || strIncludes msg "extractor") = false →
      (strIncludes msg "network" || strIncludes msg "Connection") = false →
      (strIncludes msg "comments are disabled" || strIncludes msg "Comments are turned off") = false →
      (strIncludes msg "Sign in" || strIncludes msg "age") = true →
      classifyError url (some msg) =
        "This video requires authentication to view comments. Configure cookies in your settings.") ∧
    ((strIncludes msg "Video unavailable" || strIncludes msg "private") = false →
      (strIncludes msg "Unsupported URL" || strIncludes msg "extractor") = false →
      (strIncludes msg "network" || strIncludes msg "Connection") = false →
      (strIncludes msg "comments are disabled" || strIncludes msg "Comments are turned off") = false →
      (strIncludes msg "Sign in" || strIncludes msg "age") = false →
      classifyError url (some msg) =
        "Failed to extract video comments: " ++ msg ++ ". Verify the URL is correct.") ∧
    classifyError url none = "Failed to extract video comments from " ++ url := by
  refine ⟨?_, ?_, ?_, ?_, ?_, ?_, rfl⟩ <;>
    intros <;> simp_all [classifyError]

/-- **C3, witness.**  A message containing "private" is classified by the
first rule. -/
theorem claim_C3_witness :
    classifyError "https://example.com/v" (some "This video is private") =
      "Video is unavailable or private: https://example.com/v" ++
        ". Check the URL and video privacy settings." :=
  (claim_C3 "https://example.com/v" "This video is private").1 (by decide)

/- ### Claim C2: size-ceiling truncation loop -/

/-- **C2, counterexample.**  With an empty retained-comment list (N = 0)
and a 10-character limit, the serialized response exceeds the limit, the
loop performs no iteration, and the returned serialization neither fits the
limit nor contains exactly one comment — it contains zero, refuting the
claim's "never zero". -/
theorem claim_C2_counterexample :
    (buildResponse ([] : List Comment) 20).comments.length = 0 ∧
    (jsonStringifyResponse (buildResponse ([] : List Comment) 20)).length >
      cfgSmall.limits.characterLimit ∧
    getVideoCommentsCore [] 20 (some cfgSmall) =
      jsonStringifyResponse (buildResponse ([] : List Comment) 20) ∧
    (getVideoCommentsCore [] 20 (some cfgSmall)).length > cfgSmall.limits.characterLimit := by
  exact ⟨rfl, by decide, by decide, by decide⟩

/-- **C2, amended.**  For every config and source list whose built response
serializes over `config.limits.characterLimit`, *provided at least one
comment was retained* (N ≥ 1), the loop stops after at most N iterations at
some retained prefix of m comments (1 ≤ m ≤ N, each iteration having
dropped exactly the last retained comment), the result either fits the
limit or has exactly one comment, and whenever at least one comment was
dropped the returned response is the truncation response: `has_more = true`,
`_truncated = true`, with a `_message`.  (For N = 0 the oversized zero-comment
response is returned unchanged, per the counterexample.) -/
theorem claim_C2 (cfg : Config) (raw : List Comment) (maxC : Nat)
    (h1 : 1 ≤ (buildResponse raw maxC).comments.length)
    (hover : (jsonStringifyResponse (buildResponse raw maxC)).length >
      cfg.limits.characterLimit) :
    ∃ m, 1 ≤ m ∧ m ≤ (buildResponse raw maxC).comments.length ∧
      getVideoCommentsCore raw maxC (some cfg) =
        (if m = (buildResponse raw maxC).comments.length then
          jsonStringifyResponse (buildResponse raw maxC)
        else
          jsonStringifyResponse (truncResponse ((buildResponse raw maxC).comments.take m))) ∧
      ((getVideoCommentsCore raw maxC (some cfg)).length ≤ cfg.limits.characterLimit ∨ m = 1) ∧
      (m < (buildResponse raw maxC).comments.length →
        (truncResponse ((buildResponse raw maxC).comments.take m)).trunc_flag = some true ∧
        (truncResponse ((buildResponse raw maxC).comments.take m)).has_more = true ∧
        (truncResponse ((buildResponse raw maxC).comments.take m)).trunc_message =
          some (truncMessage ((buildResponse raw maxC).comments.take m).length)) := by
  have hcore : getVideoCommentsCore raw maxC (some cfg) =
      truncWhile cfg.limits.characterLimit
        (jsonStringifyResponse (buildResponse raw maxC)) (buildResponse raw maxC).comments := by
    rw [core_some_eq, if_pos hover]
  rcases truncAux_spec cfg.limits.characterLimit (buildResponse raw maxC).comments
      (jsonStringifyResponse (buildResponse raw maxC)) with
    ⟨heq, hcond⟩ | ⟨m, hm1, hmlt, heq, hcond⟩
  · have hone : (buildResponse raw maxC).comments.length = 1 := by
      rcases hcond with hfit | hle
      · omega
      · omega
    refine ⟨1, le_refl 1, by omega, ?_, Or.inr rfl, fun hlt => by omega⟩
    rw [hcore]
    rw [if_pos hone.symm]
    exact heq
  · refine ⟨m, hm1, by omega, ?_, ?_, fun _ => ⟨rfl, rfl, rfl⟩⟩
    · rw [hcore]
      rw [if_neg (by omega)]
      exact heq
    · rcases hcond with hfit | h1m
      · left
        rw [hcore, truncWhile, heq]
        exact hfit
      · exact Or.inr h1m

/-- **C2, witness.**  One retained comment, limit 10: the loop runs zero
iterations and ships the single oversized comment. -/
theorem claim_C2_witness :
    (1 ≤ (buildResponse [({} : Comment)] 5).comments.length ∧
      (jsonStringifyResponse (buildResponse [({} : Comment)] 5)).length >
        cfgSmall.limits.characterLimit) ∧
    (∃ m, 1 ≤ m ∧ m ≤ (buildResponse [({} : Comment)] 5).comments.length ∧
      getVideoCommentsCore [({} : Comment)] 5 (some cfgSmall) =
        (if m = (buildResponse [({} : Comment)] 5).comments.length then
          jsonStringifyResponse (buildResponse [({} : Comment)] 5)
        else
          jsonStringifyResponse
            (truncResponse ((buildResponse [({} : Comment)] 5).comments.take m))) ∧
      ((getVideoCommentsCore [({} : Comment)] 5 (some cfgSmall)).length ≤
          cfgSmall.limits.characterLimit ∨ m = 1) ∧
      (m < (buildResponse [({} : Comment)] 5).comments.length →
        (truncResponse ((buildResponse [({} : Comment)] 5).comments.take m)).trunc_flag =
          some true ∧
        (truncResponse ((buildResponse [({} : Comment)] 5).comments.take m)).has_more = true ∧
        (truncResponse ((buildResponse [({} : Comment)] 5).comments.take m)).trunc_message =
          some (truncMessage ((buildResponse [({} : Comment)] 5).comments.take m).length))) :=
  ⟨⟨by decide, by decide⟩, claim_C2 cfgSmall [{}] 5 (by decide) (by decide)⟩

/- ### Claim C6: has_more semantics and retained prefix -/

/-- Mapping the identity projection over a list of comments is the
identity. -/
theorem projectComment_map (l : List Comment) : l.map projectComment = l := by
  induction l with
  | nil => rfl
  | cons a t ih => simp [projectComment_eq, ih]

/-- **C6.**  The built response has `has_more = true` exactly when the
source array is longer than `maxComments`, its retained comments are the
first `maxComments` source entries in order, and in the final output (for
any config) size truncation can only force `has_more` to `true`: a response
without the truncation marker carries exactly the source-count comparison. -/
theorem claim_C6 (raw : List Comment) (maxC : Nat) :
    ((buildResponse raw maxC).has_more = true ↔ raw.length > maxC) ∧
    (buildResponse raw maxC).comments = raw.take maxC ∧
    ∀ cfg : Config, ∃ R : CommentsResponse,
      getVideoCommentsCore raw maxC (some cfg) = jsonStringifyResponse R ∧
      (raw.length > maxC → R.has_more = true) ∧
      (R.trunc_flag = none → R.has_more = decide (raw.length > maxC)) := by
  refine ⟨by simp [buildResponse], by simp [buildResponse, projectComment_map], ?_⟩
  intro cfg
  by_cases hover : (jsonStringifyResponse (buildResponse raw maxC)).length >
      cfg.limits.characterLimit
  · rcases truncAux_spec cfg.limits.characterLimit (buildResponse raw maxC).comments
        (jsonStringifyResponse (buildResponse raw maxC)) with
      ⟨heq, _⟩ | ⟨m, _, _, heq, _⟩
    · refine ⟨buildResponse raw maxC, ?_, ?_, ?_⟩
      · rw [core_some_eq, if_pos hover]
        exact heq
      · intro h
        simp [buildResponse, h]
      · intro _
        simp [buildResponse]
    · refine ⟨truncResponse ((buildResponse raw maxC).comments.take m), ?_, ?_, ?_⟩
      · rw [core_some_eq, if_pos hover]
        exact heq
      · intro _
        rfl
      · intro h
        exact absurd h (by simp [truncResponse])
  · refine ⟨buildResponse raw maxC, ?_, ?_, ?_⟩
    · rw [core_some_eq, if_neg hover]
    · intro h
      simp [buildResponse, h]
    · intro _
      simp [buildResponse]

/-- **C6, witness.**  Two source comments, cap 1: `has_more` is true and
the single retained comment is the first source entry. -/
theorem claim_C6_witness :
    (buildResponse [({} : Comment), {}] 1).has_more = true ∧
    (buildResponse [({} : Comment), {}] 1).comments = [({} : Comment), {}].take 1 :=
  ⟨(claim_C6 [{}, {}] 1).1.mpr (by decide), (claim_C6 [{}, {}] 1).2.1⟩

/- ### Claim C9: behaviour without a config -/

/-- **C9.**  When `getVideoComments` is called without a config, the
argument vector contains no cookie arguments (it is exactly the seven fixed
arguments plus the URL), and the size ceiling is skipped entirely: the
serialized built response is returned at full length with no `_truncated`
or `_message` field. -/
theorem claim_C9 (url : String) (maxC : Nat) (so : CommentSortOrder) (raw : List Comment) :
    buildArgs url maxC so none =
      ["--dump-json", "--no-warnings", "--no-check-certificate", "--write-comments",
       "--extractor-args",
       "youtube:comment_sort=" ++ sortOrderStr so ++ ";max_comments=" ++
         toString maxC ++ ",all,all",
       "--skip-download", url] ∧
    getVideoCommentsCore raw maxC none = jsonStringifyResponse (buildResponse raw maxC) ∧
    (buildResponse raw maxC).trunc_flag = none ∧
    (buildResponse raw maxC).trunc_message = none := by
  exact ⟨by simp [buildArgs], rfl, rfl, rfl⟩

/- ### Claim C10: a single oversized comment short-circuits the loop -/

/-- **C10.**  When the built response has exactly one comment and its
serialization exceeds the limit, the loop's guard fails at once: the
oversized serialization is returned as first produced, with `count = 1`,
`has_more` reflecting only the source-count comparison, and no truncation
fields. -/
theorem claim_C10 (raw : List Comment) (maxC : Nat) (cfg : Config)
    (h1 : (buildResponse raw maxC).comments.length = 1)
    (hover : (jsonStringifyResponse (buildResponse raw maxC)).length >
      cfg.limits.characterLimit) :
    getVideoCommentsCore raw maxC (some cfg) =
      jsonStringifyResponse (buildResponse raw maxC) ∧
    (buildResponse raw maxC).count = 1 ∧
    ((buildResponse raw maxC).has_more = true ↔ raw.length > maxC) ∧
    (buildResponse raw maxC).trunc_flag = none ∧
    (buildResponse raw maxC).trunc_message = none := by
  refine ⟨?_, ?_, by simp [buildResponse], rfl, rfl⟩
  · rcases truncAux_spec cfg.limits.characterLimit (buildResponse raw maxC).comments
        (jsonStringifyResponse (buildResponse raw maxC)) with
      ⟨heq, _⟩ | ⟨m, hm1, hmlt, _, _⟩
    · rw [core_some_eq, if_pos hover]
      exact heq
    · omega
  · have : (buildResponse raw maxC).count = (buildResponse raw maxC).comments.length := by
      simp [buildResponse]
    omega

/-- **C10, witness.**  One source comment under a 10-character limit. -/
theorem claim_C10_witness :
    ((buildResponse [({} : Comment)] 5).comments.length = 1 ∧
      (jsonStringifyResponse (buildResponse [({} : Comment)] 5)).length >
        cfgSmall.limits.characterLimit) ∧
    (getVideoCommentsCore [({} : Comment)] 5 (some cfgSmall) =
        jsonStringifyResponse (buildResponse [({} : Comment)] 5) ∧
      (buildResponse [({} : Comment)] 5).count = 1 ∧
      ((buildResponse [({} : Comment)] 5).has_more = true ↔ [({} : Comment)].length > 5) ∧
      (buildResponse [({} : Comment)] 5).trunc_flag = none ∧
      (buildResponse [({} : Comment)] 5).trunc_message = none) :=
  ⟨⟨by decide, by decide⟩, claim_C10 [{}] 5 cfgSmall (by decide) (by decide)⟩

/- ### Claim C7: sanitizeFilename truncation -/

/-- **C7, counterexample.**  Under the default file configuration
(`maxFilenameLength = 50`, suffix `"..."`), a 62-character name whose
extension alone is 61 characters makes the computed cut index negative;
JavaScript `slice` then keeps all but the last 14 characters, and the
result is 112 characters long — not exactly 50 as the claim requires
(the truncation branch was taken: 62 > 50). -/
theorem claim_C7_counterexample :
    ("a.xxxxxxxxxxxxxxxxxxxxxxxxxxxxxxxxxxxxxxxxxxxxxxxxxxxxxxxxxxxx" : String).length = 62 ∧
    reservedGuard cfgBase.file
        (replaceIllegal cfgBase.file
          "a.xxxxxxxxxxxxxxxxxxxxxxxxxxxxxxxxxxxxxxxxxxxxxxxxxxxxxxxxxxxx") =
      "a.xxxxxxxxxxxxxxxxxxxxxxxxxxxxxxxxxxxxxxxxxxxxxxxxxxxxxxxxxxxx" ∧
    cfgBase.file.maxFilenameLength = 50 ∧
    (sanitizeFilename "a.xxxxxxxxxxxxxxxxxxxxxxxxxxxxxxxxxxxxxxxxxxxxxxxxxxxxxxxxxxxx"
        cfgBase.file).length = 112 := by
  exact ⟨by decide, by decide, by decide, by decide⟩

/-- String length distributes over append. -/
theorem strLength_append (a b : String) : (a ++ b).length = a.length + b.length := by
  show (a ++ b).data.length = a.data.length + b.data.length
  rw [String.data_append, List.length_append]

/-- Length of `String.mk`. -/
theorem strLength_mk (l : List Char) : (String.mk l).length = l.length := rfl

/-- **C7, amended.**  For every input name and file configuration,
`sanitizeFilename` is the composition of illegal-character replacement, the
reserved-name guard and the truncation step, in that order; and when the
guarded name is longer than `maxFilenameLength` *and the extension plus the
truncation suffix fit inside `maxFilenameLength`*, the result is exactly
`maxFilenameLength` characters long and ends with the unchanged extension
preceded by the suffix.  (When suffix + extension exceed the maximum, the
cut index is negative and the result is longer than the maximum, per the
counterexample.) -/
theorem claim_C7 (filename : String) (config : FileConfig)
    (hlong : ((reservedGuard config (replaceIllegal config filename)).length : Int) >
      config.maxFilenameLength)
    (hfits : ((extname (reservedGuard config (replaceIllegal config filename))).length : Int) +
      (config.sanitize.truncateSuffix.length : Int) ≤ config.maxFilenameLength) :
    sanitizeFilename filename config =
      truncateStep config (reservedGuard config (replaceIllegal config filename)) ∧
    ((sanitizeFilename filename config).length : Int) = config.maxFilenameLength ∧
    ∃ pre, sanitizeFilename filename config =
      pre ++ config.sanitize.truncateSuffix ++
        extname (reservedGuard config (replaceIllegal config filename)) := by
  set s2 := reservedGuard config (replaceIllegal config filename) with hs2
  have hcut0 : (0 : Int) ≤
      config.maxFilenameLength - ((extname s2).length : Int) -
        (config.sanitize.truncateSuffix.length : Int) := by omega
  have hres : sanitizeFilename filename config =
      String.mk (s2.data.take (jsSliceEnd s2.length
        (config.maxFilenameLength - ((extname s2).length : Int) -
          (config.sanitize.truncateSuffix.length : Int)))) ++
        config.sanitize.truncateSuffix ++ extname s2 := by
    show truncateStep config s2 = _
    rw [truncateStep, if_pos hlong]
  have hend : jsSliceEnd s2.length
      (config.maxFilenameLength - ((extname s2).length : Int) -
        (config.sanitize.truncateSuffix.length : Int)) =
      (config.maxFilenameLength - ((extname s2).length : Int) -
        (config.sanitize.truncateSuffix.length : Int)).toNat := by
    rw [jsSliceEnd, if_pos hcut0]
  have htake : (s2.data.take (jsSliceEnd s2.length
      (config.maxFilenameLength - ((extname s2).length : Int) -
        (config.sanitize.truncateSuffix.length : Int)))).length =
      (config.maxFilenameLength - ((extname s2).length : Int) -
        (config.sanitize.truncateSuffix.length : Int)).toNat := by
    rw [hend, List.length_take]
    have hdata : s2.data.length = s2.length := rfl
    omega
  refine ⟨rfl, ?_, ?_⟩
  · rw [hres, strLength_append, strLength_append, strLength_mk, htake]
    push_cast
    omega
  · exact ⟨String.mk (s2.data.take (jsSliceEnd s2.length
      (config.maxFilenameLength - ((extname s2).length : Int) -
        (config.sanitize.truncateSuffix.length : Int)))), hres⟩

/-- **C7, witness.**  A 64-character name with a four-character extension
under the default configuration truncates to exactly 50 characters ending
in "....txt". -/
theorem claim_C7_witness :
    ((("aaaaaaaaaaaaaaaaaaaaaaaaaaaaaaaaaaaaaaaaaaaaaaaaaaaaaaaaaaaa.txt" : String).length : Int) =
        64 ∧
      ((reservedGuard cfgBase.file (replaceIllegal cfgBase.file
          "aaaaaaaaaaaaaaaaaaaaaaaaaaaaaaaaaaaaaaaaaaaaaaaaaaaaaaaaaaaa.txt")).length : Int) >
        cfgBase.file.maxFilenameLength) ∧
    ((sanitizeFilename "aaaaaaaaaaaaaaaaaaaaaaaaaaaaaaaaaaaaaaaaaaaaaaaaaaaaaaaaaaaa.txt"
        cfgBase.file).length : Int) = cfgBase.file.maxFilenameLength ∧
    ∃ pre, sanitizeFilename "aaaaaaaaaaaaaaaaaaaaaaaaaaaaaaaaaaaaaaaaaaaaaaaaaaaaaaaaaaaa.txt"
        cfgBase.file =
      pre ++ cfgBase.file.sanitize.truncateSuffix ++
        extname (reservedGuard cfgBase.file (replaceIllegal cfgBase.file
          "aaaaaaaaaaaaaaaaaaaaaaaaaaaaaaaaaaaaaaaaaaaaaaaaaaaaaaaaaaaa.txt")) :=
  ⟨⟨by decide, by decide⟩,
    (claim_C7 "aaaaaaaaaaaaaaaaaaaaaaaaaaaaaaaaaaaaaaaaaaaaaaaaaaaaaaaaaaaa.txt"
      cfgBase.file (by decide) (by decide)).2⟩

/- ### Claim C8: summary author line -/

/-- Appending the empty string is the identity. -/
theorem strAppend_empty (s : String) : s ++ "" = s := by
  apply String.ext
  rw [String.data_append]
  exact List.append_nil s.data

/-- String append is associative. -/
theorem strAppend_assoc (a b c : String) : a ++ b ++ c = a ++ (b ++ c) := by
  apply String.ext
  simp only [String.data_append, List.append_assoc]

/-- Pull a conditionally appended tag out of an `if`. -/
theorem ite_append_tag (X Y : String) (p : Prop) [Decidable p] :
    (if p then X ++ Y else X) = X ++ (if p then Y else "") := by
  by_cases hp : p
  · rw [if_pos hp, if_pos hp]
  · rw [if_neg hp, if_neg hp, strAppend_empty]

/-- Pull a conditionally appended three-part tail out of an `if`. -/
theorem ite_append_three (X A B C : String) (p : Prop) [Decidable p] :
    (if p then X ++ A ++ B ++ C else X) = X ++ (if p then A ++ B ++ C else "") := by
  by_cases hp : p
  · rw [if_pos hp, if_pos hp, strAppend_assoc, strAppend_assoc, strAppend_assoc]
  · rw [if_neg hp, if_neg hp, strAppend_empty]

/-- The time-text section of the author line as an appended suffix. -/
theorem time_section_append (X : String) (o : Option String) :
    (match o with
     | some t => if t ≠ "" then X ++ " (" ++ t ++ ")" else X
     | none => X) =
    X ++ (match o with
     | some t => if t ≠ "" then " (" ++ t ++ ")" else ""
     | none => "") := by
  rcases o with _ | t
  · rw [strAppend_empty]
  · exact ite_append_three X " (" t ")" (t ≠ "")

/-- The like-count section of the author line as an appended suffix. -/
theorem like_section_append (X : String) (o : Option Nat) :
    (match o with
     | some n => if n > 0 then X ++ " - " ++ localeString n ++ " likes" else X
     | none => X) =
    X ++ (match o with
     | some n => if n > 0 then " - " ++ localeString n ++ " likes" else ""
     | none => "") := by
  rcases o with _ | n
  · rw [strAppend_empty]
  · exact ite_append_three X " - " (localeString n) " likes" (n > 0)

/-- The author line decomposes into the fixed-order sections of the source:
base author text, the three bracketed tags, the time text, the likes. -/
theorem authorLine_sections (c : Comment) :
    authorLine c =
      "Author: " ++
        (match c.author with
         | some a => if a ≠ "" then a else "Unknown"
         | none => "Unknown") ++
        (if c.author_is_uploader = some true then " [UPLOADER]" else "") ++
        (if c.author_is_verified = some true then " [VERIFIED]" else "") ++
        (if c.is_pinned = some true then " [PINNED]" else "") ++
        (match c.time_text with
         | some t => if t ≠ "" then " (" ++ t ++ ")" else ""
         | none => "") ++
        (match c.like_count with
         | some n => if n > 0 then " - " ++ localeString n ++ " likes" else ""
         | none => "") := by
  simp only [authorLine]
  rw [like_section_append, time_section_append, ite_append_tag, ite_append_tag,
    ite_append_tag]

/-- **C8.**  For every comment the author line is `Author: ` followed by
the author name (or `Unknown`), then the bracketed tags in the fixed order
[UPLOADER], [VERIFIED], [PINNED], then the parenthesised time text, then
`- <grouped like count> likes` when positive; in particular with
`author_is_uploader = true`, `is_pinned = true`, `like_count = 1234` the
line is literally `Author: Unknown [UPLOADER] [PINNED] - 1,234 likes`,
containing "[UPLOADER]", "[PINNED]" and "1,234 likes" in that order. -/
theorem claim_C8 :
    (∀ c : Comment,
      authorLine c =
        "Author: " ++
          (match c.author with
           | some a => if a ≠ "" then a else "Unknown"
           | none => "Unknown") ++
          (if c.author_is_uploader = some true then " [UPLOADER]" else "") ++
          (if c.author_is_verified = some true then " [VERIFIED]" else "") ++
          (if c.is_pinned = some true then " [PINNED]" else "") ++
          (match c.time_text with
           | some t => if t ≠ "" then " (" ++ t ++ ")" else ""
           | none => "") ++
          (match c.like_count with
           | some n => if n > 0 then " - " ++ localeString n ++ " likes" else ""
           | none => "")) ∧
    authorLine commentEx =
      "Author: Unknown" ++ " [UPLOADER]" ++ " [PINNED]" ++ " - " ++ "1,234" ++ " likes" ∧
    authorLine commentEx = "Author: Unknown [UPLOADER] [PINNED] - 1,234 likes" :=
  ⟨authorLine_sections, by decide, by decide⟩
